import Mathlib

/-!
Verification of the BadUSB application shell
(applications/main/bad_usb/bad_usb_app.c).

The C file is lifecycle glue: it loads and saves a small versioned settings
record, snapshots and restores the USB device configuration around the
application's lifetime, and wires event callbacks to an external scene
manager.  We embed it shallowly: the settings codec becomes pure functions
over an abstract storage environment (the outcomes of the individual
flipper_format reads and of the layout-file stat), and allocation, teardown
and the entry point become functions that return the updated application
context together with an explicit trace of the external calls they perform.
-/

/-- Source: the settings file type tag written and checked by the codec. -/
def BAD_USB_SETTINGS_FILE_TYPE : String := "Flipper BadUSB Settings File"

/-- Source: the settings file version written and checked by the codec. -/
def BAD_USB_SETTINGS_VERSION : Nat := 1

/-- Modelled from the spec: the application's base storage folder.  Its
definition lives in bad_usb_app_i.h, which is absent from the excerpt; the
spec only requires it to be a fixed folder, so the concrete string is a
placeholder and no theorem depends on its value. -/
def BAD_USB_APP_BASE_FOLDER : String := "/ext/badusb"

/-- Modelled from the spec: the fixed layout subfolder, from the same absent
header. -/
def BAD_USB_APP_PATH_LAYOUT_FOLDER : String := "/ext/badusb/assets/layouts"

/-- Source: the built-in default layout path, the layout folder plus
"/en-US.kl". -/
def BAD_USB_SETTINGS_DEFAULT_LAYOUT : String :=
  BAD_USB_APP_PATH_LAYOUT_FOLDER ++ "/en-US.kl"

/-- Source: the hidden settings file path under the base folder. -/
def BAD_USB_SETTINGS_PATH : String := BAD_USB_APP_BASE_FOLDER ++ "/.badusb.settings"

/-- Modelled from the spec: first member of the HID-interface enum (USB = 0).
The enum itself is declared in a header absent from the excerpt; the spec
fixes the values 0 = USB, 1 = BLE. -/
def BadUsbHidInterfaceUsb : Nat := 0

/-- Modelled from the spec: second member of the HID-interface enum (BLE = 1). -/
def BadUsbHidInterfaceBle : Nat := 1

/-- Modelled from the spec: the external scene-manager collaborator.  The
shell forwards events verbatim to it, so only its handler results matter;
the tick handler's effect is represented by an abstract token. -/
structure SceneManager where
  onCustomEvent : Nat → Bool
  onBackEvent : Bool
  onTickEvent : Nat

/-- Source: the application error reason set when the USB subsystem is
locked at construction. -/
inductive BadUsbAppError where
  | closeRpc
  deriving DecidableEq, Repr

/-- Source: the scenes the shell routes to. -/
inductive BadUsbScene where
  | fileSelect
  | config
  | work
  | error
  deriving DecidableEq, Repr

/-- Source: the view identifiers registered with the view dispatcher. -/
inductive BadUsbAppView where
  | error
  | config
  | work
  deriving DecidableEq, Repr

/-- The application context.  The struct is declared in bad_usb_app_i.h
(absent from the excerpt); its fields are reconstructed from every access
the C file makes.  UI handles are abstract naturals; the saved USB
configuration is an abstract handle, present or not. -/
structure BadUsbApp where
  bad_usb_script : Option Nat
  file_path : String
  keyboard_layout : String
  interface : Nat
  gui : Nat
  notifications : Nat
  dialogs : Nat
  view_dispatcher : Nat
  scene_manager : SceneManager
  widget : Nat
  var_item_list : Nat
  bad_usb_view : Nat
  error : Option BadUsbAppError
  usb_if_prev : Option Nat

/-- The outcomes of the individual read operations bad_usb_load_settings
performs on the settings file: whether the open succeeds, the header read
(tag and version), the layout-string read, and the interface-integer read.
A none means the corresponding flipper_format read fails (missing file,
truncated file, missing field). -/
structure SettingsRead where
  openOk : Bool
  header : Option (String × Nat)
  layout : Option String
  interface : Option Nat
  deriving DecidableEq, Repr

/-- The validation chain of bad_usb_load_settings (the do/while body):
open, read header, compare tag and version, read layout, read interface,
range-check the interface.  Returns the layout string and interface value
exactly when every step succeeds (the C sets state = true). -/
def settingsParse (r : SettingsRead) : Option (String × Nat) :=
  if r.openOk then
    match r.header with
    | none => none
    | some (tag, ver) =>
      if tag ≠ BAD_USB_SETTINGS_FILE_TYPE ∨ ver ≠ BAD_USB_SETTINGS_VERSION then none
      else
        match r.layout with
        | none => none
        | some lay =>
          match r.interface with
          | none => none
          | some itf =>
            if BadUsbHidInterfaceBle < itf then none else some (lay, itf)
  else none

/-- bad_usb_load_settings.  On a fully valid read it stores the layout and
interface, then stats the layout path (`stat` returns the file size, or
none on a stat error) and falls back to the default layout when the file is
missing or not exactly 256 bytes.  On any failed read it stores the default
layout and the USB interface. -/
def bad_usb_load_settings (r : SettingsRead) (stat : String → Option Nat)
    (app : BadUsbApp) : BadUsbApp :=
  match settingsParse r with
  | some (lay, itf) =>
    let app1 := { app with keyboard_layout := lay, interface := itf }
    match stat app1.keyboard_layout with
    | some size =>
      if size ≠ 256 then { app1 with keyboard_layout := BAD_USB_SETTINGS_DEFAULT_LAYOUT }
      else app1
    | none => { app1 with keyboard_layout := BAD_USB_SETTINGS_DEFAULT_LAYOUT }
  | none =>
    { app with keyboard_layout := BAD_USB_SETTINGS_DEFAULT_LAYOUT,
               interface := BadUsbHidInterfaceUsb }

/-- The settings file contents as far as a write got: header (tag and
version), layout string, interface value.  A missing component means the
write chain broke before reaching it. -/
structure SettingsFileContent where
  header : Option (String × Nat)
  layout : Option String
  interface : Option Nat
  deriving DecidableEq, Repr

/-- Success flags for the write operations of bad_usb_save_settings:
open-always, write header, write layout, write interface. -/
structure SettingsWriteEnv where
  openOk : Bool
  headerOk : Bool
  layoutOk : Bool
  interfaceOk : Bool
  deriving DecidableEq, Repr

/-- bad_usb_save_settings.  Writes header, layout and interface in order,
stopping at the first failure; the application context is returned
untouched alongside the file contents produced (none when the open itself
fails and nothing is written).  The interface value is narrowed to uint32
as in the C local interface_id. -/
def bad_usb_save_settings (w : SettingsWriteEnv) (app : BadUsbApp) :
    BadUsbApp × Option SettingsFileContent :=
  if w.openOk then
    if w.headerOk then
      if w.layoutOk then
        let interface_id : Nat := app.interface % 4294967296
        if w.interfaceOk then
          (app, some { header := some (BAD_USB_SETTINGS_FILE_TYPE, BAD_USB_SETTINGS_VERSION),
                       layout := some app.keyboard_layout,
                       interface := some interface_id })
        else
          (app, some { header := some (BAD_USB_SETTINGS_FILE_TYPE, BAD_USB_SETTINGS_VERSION),
                       layout := some app.keyboard_layout,
                       interface := none })
      else
        (app, some { header := some (BAD_USB_SETTINGS_FILE_TYPE, BAD_USB_SETTINGS_VERSION),
                     layout := none, interface := none })
    else
      (app, some { header := none, layout := none, interface := none })
  else
    (app, none)

/-- Modelled from the spec: the settings file format of section 6 (header
with tag and version, then a layout string field, then an interface integer
field) together with the flipper_format library, which is not part of the
excerpt.  Reading a field of a stored file yields exactly the stored value,
and a missing file or missing field fails the corresponding read. -/
def settingsReadOfFile : Option SettingsFileContent → SettingsRead
  | none => { openOk := false, header := none, layout := none, interface := none }
  | some c => { openOk := true, header := c.header, layout := c.layout, interface := c.interface }

/-- The malformed-file conditions claim C1 enumerates: missing file (open
fails), unreadable header, header tag mismatch, version mismatch, missing
layout field, missing interface field, out-of-range interface value. -/
def malformedRead (r : SettingsRead) : Prop :=
  r.openOk = false ∨
  r.header = none ∨
  (∃ tag ver, r.header = some (tag, ver) ∧ tag ≠ BAD_USB_SETTINGS_FILE_TYPE) ∨
  (∃ tag ver, r.header = some (tag, ver) ∧ ver ≠ BAD_USB_SETTINGS_VERSION) ∨
  r.layout = none ∨
  r.interface = none ∨
  (∃ v, r.interface = some v ∧ BadUsbHidInterfaceBle < v)

/-- A concrete application context used to instantiate universally
quantified theorems. -/
def appA : BadUsbApp :=
  { bad_usb_script := none
    file_path := "/ext/badusb/demo.txt"
    keyboard_layout := "/ext/badusb/assets/layouts/de-DE.kl"
    interface := 1
    gui := 1
    notifications := 2
    dialogs := 3
    view_dispatcher := 4
    scene_manager := { onCustomEvent := fun e => e = 42, onBackEvent := true, onTickEvent := 7 }
    widget := 5
    var_item_list := 6
    bad_usb_view := 7
    error := none
    usb_if_prev := some 9 }

/-- A settings read where the file is missing. -/
def readMissing : SettingsRead :=
  { openOk := false, header := none, layout := none, interface := none }

/-- A parse that succeeds pins down every component of the read: the open
succeeded, the header carried the exact tag and version, layout and
interface were present, and the interface passed the range check. -/
theorem settingsParse_eq_some (r : SettingsRead) (lay : String) (itf : Nat)
    (h : settingsParse r = some (lay, itf)) :
    r.openOk = true ∧
    r.header = some (BAD_USB_SETTINGS_FILE_TYPE, BAD_USB_SETTINGS_VERSION) ∧
    r.layout = some lay ∧ r.interface = some itf ∧ itf ≤ BadUsbHidInterfaceBle := by
  unfold settingsParse at h
  repeat' split at h
  all_goals simp_all [BadUsbHidInterfaceBle, Nat.not_lt]

/-- A malformed read never parses. -/
theorem settingsParse_of_malformed (r : SettingsRead) (h : malformedRead r) :
    settingsParse r = none := by
  cases hps : settingsParse r with
  | none => rfl
  | some p =>
    obtain ⟨lay, itf⟩ := p
    obtain ⟨h1, h2, h3, h4, h5⟩ := settingsParse_eq_some r lay itf hps
    rcases h with h | h | ⟨tag, ver, h, hne⟩ | ⟨tag, ver, h, hne⟩ | h | h | ⟨v, h, hv⟩
    all_goals simp_all [BadUsbHidInterfaceBle]
    all_goals omega

/-- C1: for every malformed settings file (missing file, unreadable header,
header tag mismatch, version mismatch, missing layout field, missing or
out-of-range interface field), bad_usb_load_settings yields exactly the
default record — default layout path and USB interface — leaving every
other context field untouched, with no field partially applied from the
file and no error raised (the function is total). -/
theorem bad_usb_load_settings_malformed_defaults (r : SettingsRead)
    (stat : String → Option Nat) (app : BadUsbApp) (h : malformedRead r) :
    bad_usb_load_settings r stat app =
      { app with keyboard_layout := BAD_USB_SETTINGS_DEFAULT_LAYOUT,
                 interface := BadUsbHidInterfaceUsb } := by
  rw [bad_usb_load_settings, settingsParse_of_malformed r h]

/-- Witness for C1 at a concrete malformed read (missing file) and concrete
context. -/
theorem bad_usb_load_settings_malformed_defaults_witness :
    malformedRead readMissing ∧
    bad_usb_load_settings readMissing (fun _ => some 256) appA =
      { appA with keyboard_layout := BAD_USB_SETTINGS_DEFAULT_LAYOUT,
                  interface := BadUsbHidInterfaceUsb } :=
  ⟨Or.inl rfl,
   bad_usb_load_settings_malformed_defaults readMissing (fun _ => some 256) appA (Or.inl rfl)⟩

/-- Unfolding lemma for bad_usb_load_settings: the result as a case split
over the parse outcome and the stat of the loaded layout path. -/
theorem bad_usb_load_settings_elim (r : SettingsRead) (stat : String → Option Nat)
    (app : BadUsbApp) :
    bad_usb_load_settings r stat app =
      match settingsParse r with
      | some (lay, itf) =>
        match stat lay with
        | some size =>
          if size ≠ 256 then
            { app with keyboard_layout := BAD_USB_SETTINGS_DEFAULT_LAYOUT, interface := itf }
          else { app with keyboard_layout := lay, interface := itf }
        | none =>
          { app with keyboard_layout := BAD_USB_SETTINGS_DEFAULT_LAYOUT, interface := itf }
      | none =>
        { app with keyboard_layout := BAD_USB_SETTINGS_DEFAULT_LAYOUT,
                   interface := BadUsbHidInterfaceUsb } := by
  rcases hp : settingsParse r with _ | ⟨lay, itf⟩
  · simp [bad_usb_load_settings, hp]
  · rcases hs : stat lay with _ | sz
    · simp [bad_usb_load_settings, hp, hs]
    · simp [bad_usb_load_settings, hp, hs]

/-- After a successful parse the stored interface is the parsed value,
whatever the layout stat says. -/
theorem bad_usb_load_settings_interface_eq (r : SettingsRead)
    (stat : String → Option Nat) (app : BadUsbApp) (lay : String) (itf : Nat)
    (hp : settingsParse r = some (lay, itf)) :
    (bad_usb_load_settings r stat app).interface = itf := by
  rcases hs : stat lay with _ | sz
  · simp [bad_usb_load_settings_elim, hp, hs]
  · by_cases h : sz = 256 <;> simp [bad_usb_load_settings_elim, hp, hs, h]

/-- After a successful parse whose layout stats to exactly 256 bytes, the
stored layout is the parsed one. -/
theorem bad_usb_load_settings_layout_eq (r : SettingsRead)
    (stat : String → Option Nat) (app : BadUsbApp) (lay : String) (itf : Nat)
    (hp : settingsParse r = some (lay, itf)) (hstat : stat lay = some 256) :
    (bad_usb_load_settings r stat app).keyboard_layout = lay := by
  simp [bad_usb_load_settings_elim, hp, hstat]

/-- C3: for every structurally valid settings record whose referenced layout
resource is missing (stat error) or whose size is not exactly 256 bytes,
bad_usb_load_settings stores the built-in default layout path while keeping
the interface value read from the file. -/
theorem bad_usb_load_settings_layout_fallback (r : SettingsRead)
    (stat : String → Option Nat) (app : BadUsbApp) (lay : String) (v : Nat)
    (hopen : r.openOk = true)
    (hheader : r.header = some (BAD_USB_SETTINGS_FILE_TYPE, BAD_USB_SETTINGS_VERSION))
    (hlay : r.layout = some lay) (hint : r.interface = some v)
    (hv : v ≤ BadUsbHidInterfaceBle)
    (hbad : stat lay = none ∨ ∃ sz, stat lay = some sz ∧ sz ≠ 256) :
    bad_usb_load_settings r stat app =
      { app with keyboard_layout := BAD_USB_SETTINGS_DEFAULT_LAYOUT, interface := v } := by
  have hp : settingsParse r = some (lay, v) := by
    simp [settingsParse, hopen, hheader, hlay, hint, Nat.not_lt.mpr hv]
  rcases hbad with hb | ⟨sz, hb, hsz⟩
  · simp [bad_usb_load_settings_elim, hp, hb]
  · simp [bad_usb_load_settings_elim, hp, hb, hsz]

/-- A structurally valid settings read naming a missing layout resource. -/
def readValidMissingLayout : SettingsRead :=
  { openOk := true
    header := some (BAD_USB_SETTINGS_FILE_TYPE, BAD_USB_SETTINGS_VERSION)
    layout := some "/ext/badusb/assets/layouts/de-DE.kl"
    interface := some 1 }

/-- Witness for C3 at a concrete valid read whose layout resource is
missing. -/
theorem bad_usb_load_settings_layout_fallback_witness :
    bad_usb_load_settings readValidMissingLayout (fun _ => none) appA =
      { appA with keyboard_layout := BAD_USB_SETTINGS_DEFAULT_LAYOUT, interface := 1 } :=
  bad_usb_load_settings_layout_fallback readValidMissingLayout (fun _ => none) appA
    "/ext/badusb/assets/layouts/de-DE.kl" 1 rfl rfl rfl rfl (by decide) (Or.inl rfl)

/-- C8: whatever the settings file contains, after bad_usb_load_settings the
stored interface is one of the two enum members (USB = 0 or BLE = 1); and a
file value strictly greater than BLE makes the whole record be rejected,
yielding the defaults, rather than an out-of-range interface being stored. -/
theorem bad_usb_load_settings_interface_invariant (r : SettingsRead)
    (stat : String → Option Nat) (app : BadUsbApp) :
    ((bad_usb_load_settings r stat app).interface = BadUsbHidInterfaceUsb ∨
     (bad_usb_load_settings r stat app).interface = BadUsbHidInterfaceBle) ∧
    (∀ v, r.interface = some v → BadUsbHidInterfaceBle < v →
      bad_usb_load_settings r stat app =
        { app with keyboard_layout := BAD_USB_SETTINGS_DEFAULT_LAYOUT,
                   interface := BadUsbHidInterfaceUsb }) := by
  constructor
  · rcases hp : settingsParse r with _ | ⟨lay, itf⟩
    · rw [bad_usb_load_settings_elim, hp]
      left
      rfl
    · have hle := (settingsParse_eq_some r lay itf hp).2.2.2.2
      have hitf := bad_usb_load_settings_interface_eq r stat app lay itf hp
      rw [hitf]
      unfold BadUsbHidInterfaceUsb BadUsbHidInterfaceBle at hle ⊢
      omega
  · intro v hv hgt
    have hp : settingsParse r = none := by
      apply settingsParse_of_malformed
      exact Or.inr (Or.inr (Or.inr (Or.inr (Or.inr (Or.inr ⟨v, hv, hgt⟩)))))
    rw [bad_usb_load_settings_elim, hp]

/-- A settings read whose interface value 2 is outside the enum. -/
def readHighInterface : SettingsRead :=
  { openOk := true
    header := some (BAD_USB_SETTINGS_FILE_TYPE, BAD_USB_SETTINGS_VERSION)
    layout := some "/ext/badusb/assets/layouts/de-DE.kl"
    interface := some 2 }

/-- Witness for C8 at a concrete read carrying the out-of-range interface
value 2. -/
theorem bad_usb_load_settings_interface_invariant_witness :
    ((bad_usb_load_settings readHighInterface (fun _ => some 256) appA).interface =
        BadUsbHidInterfaceUsb ∨
     (bad_usb_load_settings readHighInterface (fun _ => some 256) appA).interface =
        BadUsbHidInterfaceBle) ∧
    bad_usb_load_settings readHighInterface (fun _ => some 256) appA =
      { appA with keyboard_layout := BAD_USB_SETTINGS_DEFAULT_LAYOUT,
                  interface := BadUsbHidInterfaceUsb } :=
  ⟨(bad_usb_load_settings_interface_invariant readHighInterface (fun _ => some 256) appA).1,
   (bad_usb_load_settings_interface_invariant readHighInterface (fun _ => some 256) appA).2
     2 rfl (by decide)⟩

/-- C2: saving a settings record and loading it back yields the same record
(layout path and interface) provided the writes succeed, the record's
interface is one of the two enum members, and the layout path stats to
exactly 256 bytes at load time. -/
theorem bad_usb_settings_round_trip (w : SettingsWriteEnv) (app app2 : BadUsbApp)
    (stat : String → Option Nat)
    (hw1 : w.openOk = true) (hw2 : w.headerOk = true)
    (hw3 : w.layoutOk = true) (hw4 : w.interfaceOk = true)
    (hi : app.interface ≤ BadUsbHidInterfaceBle)
    (hstat : stat app.keyboard_layout = some 256) :
    (bad_usb_load_settings (settingsReadOfFile (bad_usb_save_settings w app).2)
        stat app2).keyboard_layout = app.keyboard_layout ∧
    (bad_usb_load_settings (settingsReadOfFile (bad_usb_save_settings w app).2)
        stat app2).interface = app.interface := by
  have hmod : app.interface % 4294967296 = app.interface := by
    apply Nat.mod_eq_of_lt
    unfold BadUsbHidInterfaceBle at hi
    omega
  have hsave : (bad_usb_save_settings w app).2 =
      some { header := some (BAD_USB_SETTINGS_FILE_TYPE, BAD_USB_SETTINGS_VERSION),
             layout := some app.keyboard_layout,
             interface := some app.interface } := by
    simp [bad_usb_save_settings, hw1, hw2, hw3, hw4, hmod]
  have hp : settingsParse (settingsReadOfFile (bad_usb_save_settings w app).2) =
      some (app.keyboard_layout, app.interface) := by
    rw [hsave]
    simp [settingsParse, settingsReadOfFile, Nat.not_lt.mpr hi]
  exact ⟨bad_usb_load_settings_layout_eq _ stat app2 _ _ hp hstat,
         bad_usb_load_settings_interface_eq _ stat app2 _ _ hp⟩

/-- A write environment in which every write succeeds. -/
def writeAllOk : SettingsWriteEnv :=
  { openOk := true, headerOk := true, layoutOk := true, interfaceOk := true }

/-- Witness for C2 at a concrete record and a stat that reports 256 bytes. -/
theorem bad_usb_settings_round_trip_witness :
    (bad_usb_load_settings (settingsReadOfFile (bad_usb_save_settings writeAllOk appA).2)
        (fun _ => some 256) appA).keyboard_layout = appA.keyboard_layout ∧
    (bad_usb_load_settings (settingsReadOfFile (bad_usb_save_settings writeAllOk appA).2)
        (fun _ => some 256) appA).interface = appA.interface :=
  bad_usb_settings_round_trip writeAllOk appA appA (fun _ => some 256)
    rfl rfl rfl rfl (by decide) rfl

/-- bad_usb_load_settings touches only keyboard_layout and interface: every
other context field is returned unchanged. -/
theorem bad_usb_load_settings_frame (r : SettingsRead) (stat : String → Option Nat)
    (app : BadUsbApp) :
    (bad_usb_load_settings r stat app).bad_usb_script = app.bad_usb_script ∧
    (bad_usb_load_settings r stat app).file_path = app.file_path ∧
    (bad_usb_load_settings r stat app).gui = app.gui ∧
    (bad_usb_load_settings r stat app).notifications = app.notifications ∧
    (bad_usb_load_settings r stat app).dialogs = app.dialogs ∧
    (bad_usb_load_settings r stat app).view_dispatcher = app.view_dispatcher ∧
    (bad_usb_load_settings r stat app).scene_manager = app.scene_manager ∧
    (bad_usb_load_settings r stat app).widget = app.widget ∧
    (bad_usb_load_settings r stat app).var_item_list = app.var_item_list ∧
    (bad_usb_load_settings r stat app).bad_usb_view = app.bad_usb_view ∧
    (bad_usb_load_settings r stat app).error = app.error ∧
    (bad_usb_load_settings r stat app).usb_if_prev = app.usb_if_prev := by
  rcases hp : settingsParse r with _ | ⟨lay, itf⟩
  · simp [bad_usb_load_settings_elim, hp]
  · rcases hs : stat lay with _ | sz
    · simp [bad_usb_load_settings_elim, hp, hs]
    · by_cases h : sz = 256 <;> simp [bad_usb_load_settings_elim, hp, hs, h]

/-- Modelled from the spec: the record names of the shared platform services
(furi record identifiers, defined in headers absent from the excerpt). -/
def RECORD_GUI : String := "gui"

/-- Modelled from the spec: the record name of the notification service. -/
def RECORD_NOTIFICATION : String := "notification"

/-- Modelled from the spec: the record name of the dialog service. -/
def RECORD_DIALOGS : String := "dialogs"

/-- The external calls bad_usb_app_alloc, bad_usb_app_free and the entry
point perform, in order, as an explicit trace. -/
inductive Ev where
  | loadSettings
  | saveSettings
  | openRecord (name : String)
  | closeRecord (name : String)
  | viewDispatcherAlloc
  | enableQueue
  | sceneManagerAlloc
  | setEventContext
  | setTickCallback (period : Nat)
  | setCustomCallback
  | setNavCallback
  | widgetAlloc
  | varItemListAlloc
  | badUsbViewAlloc
  | addView (v : BadUsbAppView)
  | attachToGui
  | usbIsLocked
  | usbGetConfig
  | usbSetConfig (cfg : Option Nat)
  | sceneNext (s : BadUsbScene)
  | scriptClose
  | removeView (v : BadUsbAppView)
  | badUsbViewFree
  | widgetFree
  | varItemListFree
  | viewDispatcherFree
  | sceneManagerFree
  | freeString
  | runDispatcher
  | freeApp
  deriving DecidableEq, Repr

/-- The scene transitions requested in a trace, in order. -/
def sceneEvents (t : List Ev) : List BadUsbScene :=
  t.filterMap fun e =>
    match e with
    | Ev.sceneNext s => some s
    | _ => none

/-- How often a trace invokes the settings save. -/
def countSave : List Ev → Nat
  | [] => 0
  | Ev.saveSettings :: t => countSave t + 1
  | _ :: t => countSave t

/-- The environment bad_usb_app_alloc runs in: the USB lock state, the
configuration furi_hal_usb_get_config would return, the settings-file read
outcomes, the layout stat, and the scene manager built from the scene
handler table. -/
structure AllocEnv where
  usbLocked : Bool
  usbConfig : Option Nat
  settingsRead : SettingsRead
  stat : String → Option Nat
  sceneManager : SceneManager

/-- The context right after the malloc and the early furi_string_alloc
calls: no script, empty strings, no error, no saved USB configuration.
The UI handles receive arbitrary distinct values (they are opaque). -/
def bad_usb_app_initial (env : AllocEnv) : BadUsbApp :=
  { bad_usb_script := none
    file_path := ""
    keyboard_layout := ""
    interface := 0
    gui := 1
    notifications := 2
    dialogs := 3
    view_dispatcher := 4
    scene_manager := env.sceneManager
    widget := 5
    var_item_list := 6
    bad_usb_view := 7
    error := none
    usb_if_prev := none }

/-- The context after the entry argument is applied (file_path is set when
the argument is present and non-empty, as in `if(arg && strlen(arg))`) and
the settings are loaded. -/
def bad_usb_app_prepared (arg : Option String) (env : AllocEnv) : BadUsbApp :=
  bad_usb_load_settings env.settingsRead env.stat
    (match arg with
     | some a =>
       if a = "" then bad_usb_app_initial env
       else { bad_usb_app_initial env with file_path := a }
     | none => bad_usb_app_initial env)

/-- The external calls bad_usb_app_alloc performs before it queries the USB
lock state: load settings, open the three service records, build the view
dispatcher and scene manager, register the three event callbacks (the tick
callback with period 500), create and add the three views, attach to the
GUI. -/
def allocSetupEvents : List Ev :=
  [Ev.loadSettings,
   Ev.openRecord RECORD_GUI, Ev.openRecord RECORD_NOTIFICATION,
   Ev.openRecord RECORD_DIALOGS,
   Ev.viewDispatcherAlloc, Ev.enableQueue, Ev.sceneManagerAlloc,
   Ev.setEventContext, Ev.setTickCallback 500, Ev.setCustomCallback,
   Ev.setNavCallback,
   Ev.widgetAlloc, Ev.addView BadUsbAppView.error,
   Ev.varItemListAlloc, Ev.addView BadUsbAppView.config,
   Ev.badUsbViewAlloc, Ev.addView BadUsbAppView.work,
   Ev.attachToGui, Ev.usbIsLocked]

/-- bad_usb_app_alloc.  After the shared setup: if USB is locked, set the
error reason, record no prior configuration and go to the Error scene; else
snapshot the current configuration, force the neutral configuration, and go
to Work (non-empty file path) or FileSelect (empty file path, after setting
the browse root to the base folder). -/
def bad_usb_app_alloc (arg : Option String) (env : AllocEnv) : BadUsbApp × List Ev :=
  let app := bad_usb_app_prepared arg env
  if env.usbLocked then
    ({ app with error := some BadUsbAppError.closeRpc, usb_if_prev := none },
     allocSetupEvents ++ [Ev.sceneNext BadUsbScene.error])
  else
    let app2 := { app with usb_if_prev := env.usbConfig }
    if app2.file_path ≠ "" then
      (app2,
       allocSetupEvents ++
         [Ev.usbGetConfig, Ev.usbSetConfig none, Ev.sceneNext BadUsbScene.work])
    else
      ({ app2 with file_path := BAD_USB_APP_BASE_FOLDER },
       allocSetupEvents ++
         [Ev.usbGetConfig, Ev.usbSetConfig none,
          Ev.sceneNext BadUsbScene.fileSelect])

/-- The view and service teardown bad_usb_app_free performs between the
script close and the settings save, in source order. -/
def freeViewServiceEvents : List Ev :=
  [Ev.removeView BadUsbAppView.work, Ev.badUsbViewFree,
   Ev.removeView BadUsbAppView.error, Ev.widgetFree,
   Ev.removeView BadUsbAppView.config, Ev.varItemListFree,
   Ev.viewDispatcherFree, Ev.sceneManagerFree,
   Ev.closeRecord RECORD_GUI, Ev.closeRecord RECORD_NOTIFICATION,
   Ev.closeRecord RECORD_DIALOGS]

/-- bad_usb_app_free.  Closes the script if open, tears down views and
services, saves settings, frees the two strings, and, if a prior USB
configuration was captured, restores it under furi_check just before the
final free: the restoreOk flag is the furi_hal_usb_set_config result, and a
failure halts (the trace stops before freeApp and the Bool result is
false). -/
def bad_usb_app_free (restoreOk : Bool) (app : BadUsbApp) : List Ev × Bool :=
  let closeEvs : List Ev :=
    match app.bad_usb_script with
    | some _ => [Ev.scriptClose]
    | none => []
  let core := closeEvs ++ freeViewServiceEvents ++
    [Ev.saveSettings, Ev.freeString, Ev.freeString]
  match app.usb_if_prev with
  | some cfg =>
    if restoreOk then (core ++ [Ev.usbSetConfig (some cfg), Ev.freeApp], true)
    else (core ++ [Ev.usbSetConfig (some cfg)], false)
  | none => (core ++ [Ev.freeApp], true)

/-- bad_usb_app, the entry point: allocate, run the view dispatcher (whose
internal dispatching is external to this file and appears as a single
event), free, return 0. -/
def bad_usb_app (p : Option String) (env : AllocEnv) (restoreOk : Bool) :
    (List Ev × Bool) × Int :=
  let ar := bad_usb_app_alloc p env
  let fr := bad_usb_app_free restoreOk ar.1
  ((ar.2 ++ [Ev.runDispatcher] ++ fr.1, fr.2), 0)

/-- Modelled from the spec: the scene manager's custom-event handler
(external collaborator returning whether the event was consumed). -/
def scene_manager_handle_custom_event (sm : SceneManager) (event : Nat) : Bool :=
  sm.onCustomEvent event

/-- Modelled from the spec: the scene manager's back-event handler. -/
def scene_manager_handle_back_event (sm : SceneManager) : Bool :=
  sm.onBackEvent

/-- Modelled from the spec: the scene manager's tick handler; its effect is
an abstract token. -/
def scene_manager_handle_tick_event (sm : SceneManager) : Nat :=
  sm.onTickEvent

/-- bad_usb_app_custom_event_callback: forwards the custom event to the
scene manager. -/
def bad_usb_app_custom_event_callback (app : BadUsbApp) (event : Nat) : Bool :=
  scene_manager_handle_custom_event app.scene_manager event

/-- bad_usb_app_back_event_callback: forwards the back event to the scene
manager. -/
def bad_usb_app_back_event_callback (app : BadUsbApp) : Bool :=
  scene_manager_handle_back_event app.scene_manager

/-- bad_usb_app_tick_event_callback: forwards the tick to the scene
manager. -/
def bad_usb_app_tick_event_callback (app : BadUsbApp) : Nat :=
  scene_manager_handle_tick_event app.scene_manager

/-- The file path after argument handling and settings load is the entry
argument when present and non-empty, and empty otherwise. -/
theorem bad_usb_app_prepared_file_path (arg : Option String) (env : AllocEnv) :
    (bad_usb_app_prepared arg env).file_path =
      (match arg with
       | some a => a
       | none => "") := by
  unfold bad_usb_app_prepared
  rcases arg with _ | a
  · simp [(bad_usb_load_settings_frame _ _ _).2.1, bad_usb_app_initial]
  · by_cases ha : a = "" <;>
      simp [ha, (bad_usb_load_settings_frame _ _ _).2.1, bad_usb_app_initial]

/-- The settings load inside alloc leaves the script handle closed. -/
theorem bad_usb_app_prepared_script (arg : Option String) (env : AllocEnv) :
    (bad_usb_app_prepared arg env).bad_usb_script = none := by
  unfold bad_usb_app_prepared
  rcases arg with _ | a
  · simp [(bad_usb_load_settings_frame _ _ _).1, bad_usb_app_initial]
  · by_cases ha : a = "" <;>
      simp [ha, (bad_usb_load_settings_frame _ _ _).1, bad_usb_app_initial]

/-- Every alloc trace is the shared setup followed by exactly one of the
three endings. -/
theorem bad_usb_app_alloc_trace_cases (arg : Option String) (env : AllocEnv) :
    (bad_usb_app_alloc arg env).2 =
      allocSetupEvents ++ [Ev.sceneNext BadUsbScene.error] ∨
    (bad_usb_app_alloc arg env).2 =
      allocSetupEvents ++
        [Ev.usbGetConfig, Ev.usbSetConfig none, Ev.sceneNext BadUsbScene.work] ∨
    (bad_usb_app_alloc arg env).2 =
      allocSetupEvents ++
        [Ev.usbGetConfig, Ev.usbSetConfig none,
         Ev.sceneNext BadUsbScene.fileSelect] := by
  unfold bad_usb_app_alloc
  cases h : env.usbLocked
  · simp only [h, Bool.false_eq_true, if_false]
    split
    · right; left; rfl
    · right; right; rfl
  · left; simp [h]

/-- C4: with USB locked at construction, for every entry argument the only
scene entered is Error, no usb-set-config call appears in the construction
trace, the prior-configuration snapshot stays none, and teardown of the
resulting context performs no USB restoration either. -/
theorem bad_usb_locked_error_no_usb_change (arg : Option String) (env : AllocEnv)
    (h : env.usbLocked = true) :
    sceneEvents (bad_usb_app_alloc arg env).2 = [BadUsbScene.error] ∧
    (∀ cfg, Ev.usbSetConfig cfg ∉ (bad_usb_app_alloc arg env).2) ∧
    (bad_usb_app_alloc arg env).1.usb_if_prev = none ∧
    (∀ restoreOk cfg,
      Ev.usbSetConfig cfg ∉ (bad_usb_app_free restoreOk (bad_usb_app_alloc arg env).1).1) := by
  have ht : (bad_usb_app_alloc arg env).2 =
      allocSetupEvents ++ [Ev.sceneNext BadUsbScene.error] := by
    simp [bad_usb_app_alloc, h]
  have ha : (bad_usb_app_alloc arg env).1 =
      { bad_usb_app_prepared arg env with error := some BadUsbAppError.closeRpc,
                                          usb_if_prev := none } := by
    simp [bad_usb_app_alloc, h]
  refine ⟨?_, ?_, ?_, ?_⟩
  · rw [ht]; decide
  · intro cfg
    rw [ht]
    simp [allocSetupEvents]
  · rw [ha]
  · intro restoreOk cfg
    rw [ha]
    have hbs := bad_usb_app_prepared_script arg env
    simp [bad_usb_app_free, hbs, freeViewServiceEvents]

/-- A scene manager instance for concrete witnesses. -/
def smA : SceneManager :=
  { onCustomEvent := fun e => e = 42, onBackEvent := true, onTickEvent := 7 }

/-- A construction environment with USB locked. -/
def envLocked : AllocEnv :=
  { usbLocked := true, usbConfig := some 9, settingsRead := readMissing,
    stat := fun _ => none, sceneManager := smA }

/-- Witness for C4 at a concrete locked environment and a concrete entry
argument. -/
theorem bad_usb_locked_error_no_usb_change_witness :
    sceneEvents (bad_usb_app_alloc (some "/scripts/demo.txt") envLocked).2 =
      [BadUsbScene.error] ∧
    (bad_usb_app_alloc (some "/scripts/demo.txt") envLocked).1.usb_if_prev = none ∧
    Ev.usbSetConfig (some 9) ∉ (bad_usb_app_alloc (some "/scripts/demo.txt") envLocked).2 ∧
    Ev.usbSetConfig (some 9) ∉
      (bad_usb_app_free true (bad_usb_app_alloc (some "/scripts/demo.txt") envLocked).1).1 :=
  ⟨(bad_usb_locked_error_no_usb_change (some "/scripts/demo.txt") envLocked rfl).1,
   (bad_usb_locked_error_no_usb_change (some "/scripts/demo.txt") envLocked rfl).2.2.1,
   (bad_usb_locked_error_no_usb_change (some "/scripts/demo.txt") envLocked rfl).2.1 (some 9),
   (bad_usb_locked_error_no_usb_change (some "/scripts/demo.txt") envLocked rfl).2.2.2
     true (some 9)⟩

/-- C5: with USB unlocked, an absent or empty entry argument starts in
FileSelect with the browse root set to the base folder, and a non-empty
entry argument starts in Work with the file path set to that argument. -/
theorem bad_usb_unlocked_initial_scene (arg : Option String) (env : AllocEnv)
    (h : env.usbLocked = false) :
    ((arg = none ∨ arg = some "") →
      sceneEvents (bad_usb_app_alloc arg env).2 = [BadUsbScene.fileSelect] ∧
      (bad_usb_app_alloc arg env).1.file_path = BAD_USB_APP_BASE_FOLDER) ∧
    (∀ a, arg = some a → a ≠ "" →
      sceneEvents (bad_usb_app_alloc arg env).2 = [BadUsbScene.work] ∧
      (bad_usb_app_alloc arg env).1.file_path = a) := by
  constructor
  · intro harg
    have hfp : (bad_usb_app_prepared arg env).file_path = "" := by
      rw [bad_usb_app_prepared_file_path]
      rcases harg with h1 | h1 <;> rw [h1]
    have ht : (bad_usb_app_alloc arg env).2 =
        allocSetupEvents ++
          [Ev.usbGetConfig, Ev.usbSetConfig none,
           Ev.sceneNext BadUsbScene.fileSelect] := by
      simp [bad_usb_app_alloc, h, hfp]
    have hfp2 : (bad_usb_app_alloc arg env).1.file_path = BAD_USB_APP_BASE_FOLDER := by
      simp [bad_usb_app_alloc, h, hfp]
    exact ⟨by rw [ht]; decide, hfp2⟩
  · intro a ha hne
    have hfp : (bad_usb_app_prepared arg env).file_path = a := by
      rw [bad_usb_app_prepared_file_path, ha]
    have ht : (bad_usb_app_alloc arg env).2 =
        allocSetupEvents ++
          [Ev.usbGetConfig, Ev.usbSetConfig none,
           Ev.sceneNext BadUsbScene.work] := by
      simp [bad_usb_app_alloc, h, hfp, hne]
    have hfp2 : (bad_usb_app_alloc arg env).1.file_path = a := by
      simp [bad_usb_app_alloc, h, hfp, hne]
    exact ⟨by rw [ht]; decide, hfp2⟩

/-- A construction environment with USB unlocked. -/
def envUnlocked : AllocEnv :=
  { usbLocked := false, usbConfig := some 9, settingsRead := readMissing,
    stat := fun _ => none, sceneManager := smA }

/-- Witness for C5: an absent argument lands in FileSelect at the base
folder, the concrete path argument lands in Work. -/
theorem bad_usb_unlocked_initial_scene_witness :
    (sceneEvents (bad_usb_app_alloc none envUnlocked).2 = [BadUsbScene.fileSelect] ∧
     (bad_usb_app_alloc none envUnlocked).1.file_path = BAD_USB_APP_BASE_FOLDER) ∧
    (sceneEvents (bad_usb_app_alloc (some "/scripts/demo.txt") envUnlocked).2 =
        [BadUsbScene.work] ∧
     (bad_usb_app_alloc (some "/scripts/demo.txt") envUnlocked).1.file_path =
        "/scripts/demo.txt") :=
  ⟨(bad_usb_unlocked_initial_scene none envUnlocked rfl).1 (Or.inl rfl),
   (bad_usb_unlocked_initial_scene (some "/scripts/demo.txt") envUnlocked rfl).2
     "/scripts/demo.txt" rfl (by decide)⟩

/-- The script-close step of teardown: one close call when a script handle
is open, nothing otherwise. -/
def scriptCloseEvents : Option Nat → List Ev
  | some _ => [Ev.scriptClose]
  | none => []

/-- The final teardown steps: the restore-under-furi_check of the saved USB
configuration when one was captured (halting before the final free on
failure), then the free of the context. -/
def restoreTail : Option Nat → Bool → List Ev
  | some cfg, true => [Ev.usbSetConfig (some cfg), Ev.freeApp]
  | some cfg, false => [Ev.usbSetConfig (some cfg)]
  | none, _ => [Ev.freeApp]

/-- The teardown trace decomposes as script close, view and service
teardown, settings save, string frees, then restore-and-free; the Bool
result is the furi_check outcome when a restore happens and true
otherwise. -/
theorem bad_usb_app_free_trace (restoreOk : Bool) (app : BadUsbApp) :
    (bad_usb_app_free restoreOk app).1 =
      scriptCloseEvents app.bad_usb_script ++ freeViewServiceEvents ++
        [Ev.saveSettings, Ev.freeString, Ev.freeString] ++
        restoreTail app.usb_if_prev restoreOk ∧
    (bad_usb_app_free restoreOk app).2 =
      (match app.usb_if_prev with
       | some _ => restoreOk
       | none => true) := by
  rcases hbs : app.bad_usb_script with _ | s <;>
    rcases hup : app.usb_if_prev with _ | cfg <;>
      cases restoreOk <;>
        simp [bad_usb_app_free, scriptCloseEvents, restoreTail, hbs, hup]

/-- The script close never appears in the later teardown steps. -/
theorem scriptClose_not_mem_tail (o : Option Nat) (ok : Bool) :
    Ev.scriptClose ∉
      freeViewServiceEvents ++ [Ev.saveSettings, Ev.freeString, Ev.freeString] ++
        restoreTail o ok := by
  rcases o with _ | cfg <;> cases ok <;> simp [freeViewServiceEvents, restoreTail]

/-- C6: teardown order.  If a script handle is open, the very first step is
its single close.  The settings save happens strictly after every view and
service teardown step.  When a prior USB configuration was captured, the
restore comes after the save (and after everything else: only the final
context free can follow it, and only when the furi_check succeeds), and the
Bool completion result equals the restore outcome — a failed restore halts
teardown (fatal) instead of being recovered; with nothing to restore
teardown always completes. -/
theorem bad_usb_app_free_teardown_order (restoreOk : Bool) (app : BadUsbApp) :
    (∀ s, app.bad_usb_script = some s →
      ∃ rest, (bad_usb_app_free restoreOk app).1 = Ev.scriptClose :: rest ∧
        Ev.scriptClose ∉ rest) ∧
    (∃ pre post, (bad_usb_app_free restoreOk app).1 = pre ++ Ev.saveSettings :: post ∧
      Ev.saveSettings ∉ pre ∧ Ev.saveSettings ∉ post ∧
      Ev.viewDispatcherFree ∈ pre ∧ Ev.sceneManagerFree ∈ pre ∧
      Ev.badUsbViewFree ∈ pre ∧ Ev.widgetFree ∈ pre ∧ Ev.varItemListFree ∈ pre ∧
      Ev.closeRecord RECORD_GUI ∈ pre ∧ Ev.closeRecord RECORD_NOTIFICATION ∈ pre ∧
      Ev.closeRecord RECORD_DIALOGS ∈ pre) ∧
    (∀ cfg, app.usb_if_prev = some cfg →
      (∃ pre2, (bad_usb_app_free restoreOk app).1 =
          pre2 ++ Ev.usbSetConfig (some cfg) ::
            (if restoreOk then [Ev.freeApp] else []) ∧
        Ev.saveSettings ∈ pre2 ∧ (∀ c2, Ev.usbSetConfig c2 ∉ pre2)) ∧
      (bad_usb_app_free restoreOk app).2 = restoreOk) ∧
    (app.usb_if_prev = none → (bad_usb_app_free restoreOk app).2 = true) := by
  obtain ⟨htr, hdone⟩ := bad_usb_app_free_trace restoreOk app
  refine ⟨?_, ?_, ?_, ?_⟩
  · intro s hs
    refine ⟨freeViewServiceEvents ++ [Ev.saveSettings, Ev.freeString, Ev.freeString] ++
      restoreTail app.usb_if_prev restoreOk, ?_, scriptClose_not_mem_tail _ _⟩
    rw [htr, hs]
    simp [scriptCloseEvents]
  · refine ⟨scriptCloseEvents app.bad_usb_script ++ freeViewServiceEvents,
      [Ev.freeString, Ev.freeString] ++ restoreTail app.usb_if_prev restoreOk,
      ?_, ?_, ?_, ?_, ?_, ?_, ?_, ?_, ?_, ?_, ?_⟩
    · rw [htr]; simp
    · rcases app.bad_usb_script with _ | s <;> simp [scriptCloseEvents, freeViewServiceEvents]
    · rcases app.usb_if_prev with _ | cfg <;> cases restoreOk <;> simp [restoreTail]
    all_goals simp [freeViewServiceEvents]
  · intro cfg hup
    constructor
    · refine ⟨scriptCloseEvents app.bad_usb_script ++ freeViewServiceEvents ++
        [Ev.saveSettings, Ev.freeString, Ev.freeString], ?_, ?_, ?_⟩
      · rw [htr, hup]
        cases restoreOk <;> simp [restoreTail]
      · simp
      · intro c2
        rcases app.bad_usb_script with _ | s <;>
          simp [scriptCloseEvents, freeViewServiceEvents]
    · rw [hdone, hup]
  · intro hup
    rw [hdone, hup]

/-- Witness for C6 at a concrete context with an open script and a captured
USB configuration, with the restore succeeding. -/
theorem bad_usb_app_free_teardown_order_witness :
    (∃ rest, (bad_usb_app_free true { appA with bad_usb_script := some 3 }).1 =
        Ev.scriptClose :: rest ∧ Ev.scriptClose ∉ rest) ∧
    (∃ pre2, (bad_usb_app_free true { appA with bad_usb_script := some 3 }).1 =
        pre2 ++ Ev.usbSetConfig (some 9) :: [Ev.freeApp] ∧
      Ev.saveSettings ∈ pre2 ∧ (∀ c2, Ev.usbSetConfig c2 ∉ pre2)) ∧
    (bad_usb_app_free true { appA with bad_usb_script := some 3 }).2 = true := by
  have h := bad_usb_app_free_teardown_order true { appA with bad_usb_script := some 3 }
  refine ⟨h.1 3 rfl, ?_, (h.2.2.1 9 rfl).2⟩
  have h2 := (h.2.2.1 9 rfl).1
  simpa using h2

/-- countSave distributes over trace concatenation. -/
theorem countSave_append (l1 l2 : List Ev) :
    countSave (l1 ++ l2) = countSave l1 + countSave l2 := by
  induction l1 with
  | nil => simp [countSave]
  | cons e t ih =>
    cases e
    all_goals simp [countSave, ih]
    all_goals omega

/-- Teardown saves the settings exactly once, whatever the context state
and whatever the restore outcome. -/
theorem countSave_free (restoreOk : Bool) (app : BadUsbApp) :
    countSave (bad_usb_app_free restoreOk app).1 = 1 := by
  obtain ⟨htr, h2⟩ := bad_usb_app_free_trace restoreOk app
  rw [htr, countSave_append, countSave_append, countSave_append]
  have ha : countSave (scriptCloseEvents app.bad_usb_script) = 0 := by
    rcases app.bad_usb_script with _ | s <;> simp [scriptCloseEvents, countSave]
  have hb : countSave (restoreTail app.usb_if_prev restoreOk) = 0 := by
    rcases app.usb_if_prev with _ | cfg <;> cases restoreOk <;>
      simp [restoreTail, countSave]
  rw [ha, hb]
  decide

/-- Construction never saves the settings. -/
theorem countSave_alloc (arg : Option String) (env : AllocEnv) :
    countSave (bad_usb_app_alloc arg env).2 = 0 := by
  rcases bad_usb_app_alloc_trace_cases arg env with h | h | h <;> rw [h] <;> decide

/-- C7: every run of the entry point saves the settings exactly once, at
teardown — construction contributes no save, the run itself is external,
and teardown saves exactly once for every context state and restore
outcome; the entry point returns 0. -/
theorem bad_usb_save_invoked_exactly_once (p : Option String) (env : AllocEnv)
    (restoreOk : Bool) :
    countSave (bad_usb_app p env restoreOk).1.1 = 1 ∧
    (∀ app, countSave (bad_usb_app_free restoreOk app).1 = 1) ∧
    (bad_usb_app p env restoreOk).2 = 0 := by
  refine ⟨?_, fun app => countSave_free restoreOk app, rfl⟩
  have ht : (bad_usb_app p env restoreOk).1.1 =
      (bad_usb_app_alloc p env).2 ++ [Ev.runDispatcher] ++
        (bad_usb_app_free restoreOk (bad_usb_app_alloc p env).1).1 := rfl
  rw [ht, countSave_append, countSave_append, countSave_alloc, countSave_free]
  decide

/-- C9: the three event callbacks are pure dispatch — each returns exactly
the corresponding scene-manager handler result — and the tick callback is
registered with the fixed period 500 (the only tick registration in the
construction trace). -/
theorem bad_usb_event_callbacks_pure_dispatch :
    (∀ app event, bad_usb_app_custom_event_callback app event =
      scene_manager_handle_custom_event app.scene_manager event) ∧
    (∀ app, bad_usb_app_back_event_callback app =
      scene_manager_handle_back_event app.scene_manager) ∧
    (∀ app, bad_usb_app_tick_event_callback app =
      scene_manager_handle_tick_event app.scene_manager) ∧
    (∀ arg env, Ev.setTickCallback 500 ∈ (bad_usb_app_alloc arg env).2 ∧
      ∀ n, Ev.setTickCallback n ∈ (bad_usb_app_alloc arg env).2 → n = 500) := by
  refine ⟨fun _ _ => rfl, fun _ => rfl, fun _ => rfl, fun arg env => ?_⟩
  rcases bad_usb_app_alloc_trace_cases arg env with h | h | h <;> rw [h]
  all_goals refine ⟨by decide, ?_⟩
  all_goals intro n hn
  all_goals simp [allocSetupEvents] at hn
  all_goals exact hn

/-- Witness for C9 at a concrete context, event and environment. -/
theorem bad_usb_event_callbacks_pure_dispatch_witness :
    bad_usb_app_custom_event_callback appA 42 =
      scene_manager_handle_custom_event appA.scene_manager 42 ∧
    bad_usb_app_back_event_callback appA =
      scene_manager_handle_back_event appA.scene_manager ∧
    bad_usb_app_tick_event_callback appA =
      scene_manager_handle_tick_event appA.scene_manager ∧
    Ev.setTickCallback 500 ∈ (bad_usb_app_alloc none envUnlocked).2 :=
  ⟨bad_usb_event_callbacks_pure_dispatch.1 appA 42,
   bad_usb_event_callbacks_pure_dispatch.2.1 appA,
   bad_usb_event_callbacks_pure_dispatch.2.2.1 appA,
   (bad_usb_event_callbacks_pure_dispatch.2.2.2 none envUnlocked).1⟩

/-- C10: the settings codec's frame — save leaves the whole context
untouched, and load modifies only keyboard_layout and interface, leaving
file_path and every other field as they were. -/
theorem bad_usb_settings_codec_frame :
    (∀ w app, (bad_usb_save_settings w app).1 = app) ∧
    (∀ r stat app,
      (bad_usb_load_settings r stat app).bad_usb_script = app.bad_usb_script ∧
      (bad_usb_load_settings r stat app).file_path = app.file_path ∧
      (bad_usb_load_settings r stat app).gui = app.gui ∧
      (bad_usb_load_settings r stat app).notifications = app.notifications ∧
      (bad_usb_load_settings r stat app).dialogs = app.dialogs ∧
      (bad_usb_load_settings r stat app).view_dispatcher = app.view_dispatcher ∧
      (bad_usb_load_settings r stat app).scene_manager = app.scene_manager ∧
      (bad_usb_load_settings r stat app).widget = app.widget ∧
      (bad_usb_load_settings r stat app).var_item_list = app.var_item_list ∧
      (bad_usb_load_settings r stat app).bad_usb_view = app.bad_usb_view ∧
      (bad_usb_load_settings r stat app).error = app.error ∧
      (bad_usb_load_settings r stat app).usb_if_prev = app.usb_if_prev) := by
  refine ⟨fun w app => ?_, fun r stat app => bad_usb_load_settings_frame r stat app⟩
  unfold bad_usb_save_settings
  repeat' split
  all_goals rfl
